import Mathlib

/-!
Verification development for the icosa gallery glTF transformation pipeline
(`django/icosa/helpers/gltf_transform.py`) and the `Format` model
(`django/icosa/models/format.py`), embedded shallowly.

File contents and the durable storage backend are modelled as association
lists from path to byte list.  The external transformation engine
(a subprocess in the source) is a parameter of the embedded functions: it
receives the staging filesystem and the same positional arguments the
subprocess receives, and reports exit code, captured stdout/stderr and the
bytes (if any) it wrote at the output path.  Python exceptions are modelled
with `Except` over a `PyExc` value carrying the exception class name and
message.
-/

namespace IcosaGltf

/-- A file's contents, as a list of bytes. -/
abbrev Bytes := List Nat

/-- A flat file store: an association list from path to file bytes.  Used
both for the scratch directory of the helper and for the durable storage
backend.  Modelled from the spec: the storage abstraction (spec section 6)
must support open-for-read, delete and save-under-name; the Django
`Resource` model and storage backend are not among the sources. -/
abbrev FS := List (String × Bytes)

/-- Look up a path (`os.path.exists` / open for read). -/
def FS.get : FS → String → Option Bytes
  | [], _ => none
  | e :: rest, p => if e.1 = p then some e.2 else FS.get rest p

/-- Remove a path (storage delete). -/
def FS.del : FS → String → FS
  | [], _ => []
  | e :: rest, p => if e.1 = p then FS.del rest p else e :: FS.del rest p

/-- Write bytes at a path, replacing any previous contents
(storage save / writing a scratch file). -/
def FS.set (fs : FS) (p : String) (b : Bytes) : FS :=
  (p, b) :: FS.del fs p

theorem FS.get_del (fs : FS) (p q : String) :
    FS.get (FS.del fs p) q = if q = p then none else FS.get fs q := by
  induction fs with
  | nil => simp [FS.get, FS.del]
  | cons e rest ih =>
    by_cases hep : e.1 = p <;> by_cases heq : e.1 = q <;>
      simp_all [FS.get, FS.del]

theorem FS.get_set_self (fs : FS) (p : String) (b : Bytes) :
    FS.get (FS.set fs p b) p = some b := by
  simp [FS.get, FS.set]

theorem FS.get_set_ne (fs : FS) (p q : String) (b : Bytes) (h : q ≠ p) :
    FS.get (FS.set fs p b) q = FS.get fs q := by
  have h' : p ≠ q := fun hh => h hh.symm
  simp [FS.get, FS.set, h', FS.get_del, h]

theorem FS.del_del (fs : FS) (p : String) :
    FS.del (FS.del fs p) p = FS.del fs p := by
  induction fs with
  | nil => rfl
  | cons e rest ih => by_cases hep : e.1 = p <;> simp_all [FS.del]

/-- The fixed allow-list of transformation operations
(`AVAILABLE_OPERATIONS` in the source). -/
def AVAILABLE_OPERATIONS : List String :=
  ["dedup", "prune", "resample", "quantize", "weld", "flatten", "join",
   "instance", "metalrough", "partition", "unweld", "simplify", "unlit",
   "draco", "textureCompress", "meshopt"]

/-- The list comprehension
`[op for op in operations if op not in AVAILABLE_OPERATIONS]`, shared by
`validate_operations` and `transform_gltf_file` in the source. -/
def invalid_ops (operations : List String) : List String :=
  operations.filter (fun op => !(AVAILABLE_OPERATIONS.contains op))

/-- `validate_operations` from `gltf_transform.py`. -/
def validate_operations (operations : List String) : Bool × Option String :=
  if operations = [] then
    (false, some "No operations specified")
  else if invalid_ops operations = [] then
    (true, none)
  else
    (false, some ("Invalid operations: " ++
      String.intercalate ", " (invalid_ops operations)))

/-- A Python exception: class name and message. -/
structure PyExc where
  kind : String
  msg : String
deriving Repr, DecidableEq

/-- One run of the external transformation engine: exit code, captured
stdout and stderr, and the bytes written at the output path (if any). -/
structure EngineRun where
  exitCode : Nat
  stdout : String
  stderr : String
  output : Option Bytes
deriving Repr

/-- The external engine as a black box: it sees the staging filesystem and
the positional arguments (input path, output path, comma-joined operation
string, truthy options), and yields one `EngineRun`. -/
abbrev Engine :=
  FS → String → String → String → Option (List (String × String)) → EngineRun

/-- The per-format result dictionary built by the helper.  Fields that a
given code path does not set are `none`, mirroring keys absent from the
Python dict. -/
structure TransformResult where
  success : Bool
  message : String
  input_size : Option Nat := none
  output_size : Option Nat := none
  reduction_percent : Option ℚ := none
  error : Option String := none
  error_type : Option String := none
  original_name : Option String := none
  new_file_path : Option String := none
deriving Repr, DecidableEq

/-- Python's repr of a list of strings (quoting of the elements omitted;
no claim depends on this text). -/
def pyStrListRepr (l : List String) : String :=
  "[" ++ String.intercalate ", " l ++ "]"

/-- `str(subprocess.CalledProcessError)` for a given exit code (command
text omitted; no claim depends on this text). -/
def calledProcessErrorStr (exitCode : Nat) : String :=
  "Command returned non-zero exit status " ++ toString exitCode ++ "."

/-- Python truthiness of the optional options dict: `if options:` appends
the serialized options to the command only when the dict is non-empty. -/
def optionsArg (options : Option (List (String × String))) :
    Option (List (String × String)) :=
  match options with
  | some o => if o = [] then none else some o
  | none => none

/-- `transform_gltf_file` from `gltf_transform.py`.  Raised exceptions are
the `Except.error` branch; the caught `CalledProcessError` becomes the
failure dictionary, as in the source. -/
def transform_gltf_file (engine : Engine) (fs : FS)
    (input_path output_path : String) (operations : List String)
    (options : Option (List (String × String))) :
    Except PyExc (TransformResult × FS) :=
  match FS.get fs input_path with
  | none =>
    Except.error ⟨"FileNotFoundError", "Input file not found: " ++ input_path⟩
  | some _ =>
    if invalid_ops operations ≠ [] then
      Except.error ⟨"ValueError",
        "Invalid operations: " ++ pyStrListRepr (invalid_ops operations)⟩
    else
      let operations_str := String.intercalate "," operations
      let run := engine fs input_path output_path operations_str
        (optionsArg options)
      let fs1 := match run.output with
        | some b => FS.set fs output_path b
        | none => fs
      if run.exitCode = 0 then
        match FS.get fs1 input_path, FS.get fs1 output_path with
        | some ib, some ob =>
          let input_size := ib.length
          let output_size := ob.length
          let reduction_percent : ℚ :=
            if input_size > 0 then
              ((input_size : ℚ) - (output_size : ℚ)) / (input_size : ℚ) * 100
            else 0
          Except.ok ({ success := true, message := run.stdout,
                       input_size := some input_size,
                       output_size := some output_size,
                       reduction_percent := some reduction_percent }, fs1)
        | _, _ => Except.error ⟨"OSError", "No such file or directory"⟩
      else
        Except.ok ({ success := false,
                     message := "Transformation failed: " ++ run.stderr,
                     error := some (calledProcessErrorStr run.exitCode) }, fs1)

/-- A stored resource as seen by the transform helper.  Modelled from the
spec: the Django `Resource` model (`resource.py`) is not among the sources;
the spec's `StoredResource` (section 3) carries a byte-stream reference,
here the optional storage name of its `FileField` (`none` models an unset,
falsy file field). -/
structure Resource where
  id : Nat
  file : Option String
deriving Repr, DecidableEq

/-- A format variant row as consumed by `transform_asset_formats`:
format type and the optional root resource (joined in). -/
structure Format where
  id : Nat
  format_type : String
  root_resource : Option Resource
deriving Repr, DecidableEq

/-- An asset with its `format_set`. -/
structure Asset where
  formats : List Format
deriving Repr, DecidableEq

/-- `os.path.basename`: the part after the last slash. -/
def basename (s : String) : String :=
  String.mk (s.data.foldl
    (fun acc c => if c = '/' then [] else acc ++ [c]) [])

/-- The body of the `try` block inside `transform_asset_formats`, for one
format variant's root resource: stage the stored bytes into a scratch
filesystem, run `transform_gltf_file`, and on success delete the old
stored file and save the output under the original filename.  Returns the
result (or the escaping exception) together with the durable storage and
the resource as left at that point.  The storage open/delete/save calls
are modelled from the spec's storage abstraction (section 6), since
`resource.py` and the storage backend are not among the sources. -/
def tryBody (engine : Engine) (operations : List String)
    (options : Option (List (String × String))) (storage : FS)
    (res : Resource) (name : String) :
    (Except PyExc TransformResult) × FS × Resource :=
  match FS.get storage name with
  | none =>
    (Except.error ⟨"FileNotFoundError", "No such file or directory: " ++ name⟩,
      storage, res)
  | some bytes =>
    let temp : FS := FS.set [] "input.glb" bytes
    match transform_gltf_file engine temp "input.glb" "output.glb"
        operations options with
    | Except.error e => (Except.error e, storage, res)
    | Except.ok (result, temp1) =>
      if result.success then
        let original_name := basename name
        let storage1 := FS.del storage name
        let res1 : Resource := { res with file := none }
        match FS.get temp1 "output.glb" with
        | none =>
          (Except.error ⟨"FileNotFoundError",
             "No such file or directory: output.glb"⟩, storage1, res1)
        | some out =>
          let storage2 := FS.set storage1 original_name out
          let res2 : Resource := { res1 with file := some original_name }
          let result1 := { result with
            original_name := some original_name,
            new_file_path := some original_name }
          (Except.ok result1, storage2, res2)
      else
        (Except.ok result, storage, res)

/-- One iteration of the loop in `transform_asset_formats`: the missing
root resource check, the missing file check, and the `try`/`except`
wrapper converting any escaped exception into a failure dictionary. -/
def processFormat (engine : Engine) (operations : List String)
    (options : Option (List (String × String))) (storage : FS)
    (fmt : Format) : TransformResult × FS × Format :=
  match fmt.root_resource with
  | none => ({ success := false, message := "No root resource found" },
      storage, fmt)
  | some res =>
    match res.file with
    | none => ({ success := false, message := "Resource file not found" },
        storage, fmt)
    | some name =>
      match tryBody engine operations options storage res name with
      | (Except.ok r, storage1, res1) =>
        (r, storage1, { fmt with root_resource := some res1 })
      | (Except.error e, storage1, res1) =>
        ({ success := false, message := e.msg, error_type := some e.kind },
          storage1, { fmt with root_resource := some res1 })

/-- Python dict assignment `results[k] = v`: replace in place if the key
exists, else append. -/
def dictSet : List (String × TransformResult) → String → TransformResult →
    List (String × TransformResult)
  | [], k, v => [(k, v)]
  | e :: rest, k, v =>
    if e.1 = k then (k, v) :: rest else e :: dictSet rest k v

/-- Python dict lookup on the results mapping. -/
def lookupResult : List (String × TransformResult) → String →
    Option TransformResult
  | [], _ => none
  | e :: rest, k => if e.1 = k then some e.2 else lookupResult rest k

/-- The loop step of `transform_asset_formats`: run `processFormat` on one
variant, record its result under the variant's format type, and thread the
storage; the processed variants are also collected so the post-state of
each variant is observable. -/
def orchStep (engine : Engine) (operations : List String)
    (options : Option (List (String × String)))
    (acc : List (String × TransformResult) × FS × List Format)
    (fmt : Format) : List (String × TransformResult) × FS × List Format :=
  let p := processFormat engine operations options acc.2.1 fmt
  (dictSet acc.1 fmt.format_type p.1, p.2.1, acc.2.2 ++ [p.2.2])

/-- `asset.format_set.filter(format_type__in=format_types)`. -/
def matchedFormats (asset : Asset) (format_types : List String) :
    List Format :=
  asset.formats.filter (fun f => format_types.contains f.format_type)

/-- `transform_asset_formats` from `gltf_transform.py`: default the target
format types, filter the asset's formats, and fold the per-variant step
over them.  Returns the results mapping, the final durable storage, and
the processed variants in order. -/
def transform_asset_formats (engine : Engine) (asset : Asset)
    (operations : List String) (options : Option (List (String × String)))
    (format_types : Option (List String)) (storage : FS) :
    List (String × TransformResult) × FS × List Format :=
  let ft := format_types.getD ["GLTF1", "GLTF2", "GLB"]
  (matchedFormats asset ft).foldl (orchStep engine operations options)
    ([], storage, [])

/-- An engine that ignores its arguments and always reports the given exit
code, stdout, stderr and output bytes; used to instantiate theorems at
concrete inputs. -/
def constEngine (code : Nat) (out err : String) (b : Option Bytes) : Engine :=
  fun _ _ _ _ _ => ⟨code, out, err, b⟩

/-- The engine run performed inside `transform_asset_formats` for a root
resource holding `bytes`: the staged scratch directory holds exactly
`input.glb` with those bytes, and the engine is invoked on the staging
input and output paths. -/
def stagedRun (engine : Engine) (operations : List String)
    (options : Option (List (String × String))) (bytes : Bytes) :
    EngineRun :=
  engine (FS.set [] "input.glb" bytes) "input.glb" "output.glb"
    (String.intercalate "," operations) (optionsArg options)

end IcosaGltf

namespace IcosaModels

/-- A `Resource` row as used by `Format.add_root_resource`: its id and the
optional `format` foreign key.  Modelled from the spec: `resource.py` is
not among the sources; the `format` field's existence follows from its use
in `format.py` (`resource.format = None; resource.save()`). -/
structure Resource where
  id : Nat
  format : Option Nat
deriving Repr, DecidableEq

/-- A `Format` row: its id and the optional `root_resource` foreign key
(a plain foreign key with `related_name="root_formats"`, not unique). -/
structure Format where
  id : Nat
  root_resource : Option Nat
deriving Repr, DecidableEq

/-- `Format.add_root_resource` from `models/format.py`: raise
`RootResourceException` when the resource has no format association,
otherwise set the root resource, detach the resource's format and save
both rows.  The error carries the exception message. -/
def add_root_resource (fmt : Format) (res : Resource) :
    Except String (Format × Resource) :=
  match res.format with
  | none => Except.error "Resource must have a format associated with it."
  | some _ =>
    Except.ok ({ fmt with root_resource := some res.id },
      { res with format := none })

/-- The persisted rows relevant to the root-resource invariant. -/
structure DbState where
  formats : List Format
  resources : List Resource
deriving Repr, DecidableEq

/-- Operations the application can perform on these rows: row creation,
plain foreign-key assignment followed by save (as done throughout the
application and its test factories), and `add_root_resource`. -/
inductive DbOp where
  | createFormat (id : Nat)
  | createResource (id : Nat) (format : Option Nat)
  | setResourceFormat (id : Nat) (format : Option Nat)
  | addRootResource (formatId : Nat) (resourceId : Nat)
deriving Repr, DecidableEq

def findFormat (s : DbState) (id : Nat) : Option Format :=
  s.formats.find? (fun f => f.id == id)

def findResource (s : DbState) (id : Nat) : Option Resource :=
  s.resources.find? (fun r => r.id == id)

def saveFormat (s : DbState) (fmt : Format) : DbState :=
  { s with formats := s.formats.map (fun f => if f.id = fmt.id then fmt else f) }

def saveResource (s : DbState) (res : Resource) : DbState :=
  { s with resources :=
      s.resources.map (fun r => if r.id = res.id then res else r) }

/-- Apply one operation.  A raised `RootResourceException` leaves the
rows unchanged (the method raises before any mutation). -/
def applyOp (s : DbState) (op : DbOp) : DbState :=
  match op with
  | .createFormat id => { s with formats := s.formats ++ [⟨id, none⟩] }
  | .createResource id f => { s with resources := s.resources ++ [⟨id, f⟩] }
  | .setResourceFormat id f =>
    { s with resources :=
        s.resources.map (fun r => if r.id = id then { r with format := f } else r) }
  | .addRootResource fid rid =>
    match findFormat s fid, findResource s rid with
    | some fmt, some res =>
      match add_root_resource fmt res with
      | Except.ok (fmt1, res1) => saveFormat (saveResource s res1) fmt1
      | Except.error _ => s
    | _, _ => s

/-- Run a list of operations from a state. -/
def run (s : DbState) (ops : List DbOp) : DbState :=
  ops.foldl applyOp s

/-- The claimed invariant: a resource is the root resource of at most one
format variant. -/
abbrev AtMostOneRoot (s : DbState) : Prop :=
  ∀ f1 ∈ s.formats, ∀ f2 ∈ s.formats,
    f1.root_resource ≠ none → f1.root_resource = f2.root_resource → f1 = f2

end IcosaModels

namespace IcosaGltf

theorem invalid_ops_eq_nil (operations : List String) :
    invalid_ops operations = [] ↔
      ∀ op ∈ operations, op ∈ AVAILABLE_OPERATIONS := by
  simp [invalid_ops, List.filter_eq_nil_iff, List.contains, List.elem_iff]

/-- C6: `validate_operations` returns `(true, null)` iff the list is
non-empty and every entry is in the fixed 16-element allow-list; the empty
list yields `(false, "No operations specified")`; a list with an unknown
name yields `false` and a message listing the offending names
(`invalid_ops` is the sub-list of offending names, comma-joined into the
message). -/
theorem C6_validate_operations (ops : List String) :
    (validate_operations ops = (true, none) ↔
      ops ≠ [] ∧ ∀ op ∈ ops, op ∈ AVAILABLE_OPERATIONS) ∧
    validate_operations [] = (false, some "No operations specified") ∧
    ((∃ op ∈ ops, op ∉ AVAILABLE_OPERATIONS) →
      validate_operations ops =
        (false, some ("Invalid operations: " ++
          String.intercalate ", " (invalid_ops ops)))) ∧
    AVAILABLE_OPERATIONS.length = 16 := by
  refine ⟨⟨?_, ?_⟩, rfl, ?_, rfl⟩
  · intro h
    by_cases h0 : ops = []
    · simp [validate_operations, h0] at h
    · refine ⟨h0, ?_⟩
      by_cases hi : invalid_ops ops = []
      · exact (invalid_ops_eq_nil ops).mp hi
      · simp [validate_operations, h0, hi] at h
  · rintro ⟨h0, hall⟩
    have hi : invalid_ops ops = [] := (invalid_ops_eq_nil ops).mpr hall
    simp [validate_operations, h0, hi]
  · rintro ⟨op, hmem, hnot⟩
    have h0 : ops ≠ [] := by rintro rfl; cases hmem
    have hi : invalid_ops ops ≠ [] := fun hnil =>
      hnot ((invalid_ops_eq_nil ops).mp hnil op hmem)
    simp [validate_operations, h0, hi]

/-- Witness for C6 at a concrete offending list. -/
theorem C6_validate_operations_witness :
    (∃ op ∈ ["dedup", "bogus"], op ∉ AVAILABLE_OPERATIONS) ∧
    validate_operations ["dedup", "bogus"] =
      (false, some ("Invalid operations: " ++
        String.intercalate ", " (invalid_ops ["dedup", "bogus"]))) :=
  ⟨⟨"bogus", by decide, by decide⟩,
    (C6_validate_operations ["dedup", "bogus"]).2.2.1
      ⟨"bogus", by decide, by decide⟩⟩

theorem validate_true_invalid_nil {ops : List String}
    (h : (validate_operations ops).1 = true) : invalid_ops ops = [] := by
  by_cases h0 : ops = []
  · simp [validate_operations, h0] at h
  · by_cases hi : invalid_ops ops = []
    · exact hi
    · simp [validate_operations, h0, hi] at h

/-- C4: with an existing input file, a list passing catalog validation,
and an engine run that exits zero after producing the output file,
`transform_gltf_file` returns success with the captured stdout as the
message, the output file's actual byte length, and the reduction
percentage `(inputSize - outputSize) / inputSize * 100` (exactly `0` when
the input size is `0`). -/
theorem C4_transform_gltf_file_success (engine : Engine) (fs : FS)
    (i o : String) (ops : List String)
    (options : Option (List (String × String))) (ib ob : Bytes)
    (hio : i ≠ o)
    (hin : FS.get fs i = some ib)
    (hval : (validate_operations ops).1 = true)
    (hexit : (engine fs i o (String.intercalate "," ops)
      (optionsArg options)).exitCode = 0)
    (hout : (engine fs i o (String.intercalate "," ops)
      (optionsArg options)).output = some ob) :
    transform_gltf_file engine fs i o ops options =
      Except.ok ({
        success := true,
        message := (engine fs i o (String.intercalate "," ops)
          (optionsArg options)).stdout,
        input_size := some ib.length,
        output_size := some ob.length,
        reduction_percent := some (if ib.length = 0 then 0 else
          ((ib.length : ℚ) - (ob.length : ℚ)) / (ib.length : ℚ) * 100) },
        FS.set fs o ob) := by
  have hval' := validate_true_invalid_nil hval
  simp only [transform_gltf_file, hin, hval', ne_eq, not_true_eq_false,
    if_false, hout, hexit, if_pos rfl, FS.get_set_self,
    FS.get_set_ne fs o i ob hio]
  by_cases hz : ib.length = 0 <;>
    simp [hz, Nat.pos_of_ne_zero]

/-- Witness for C4 at a concrete input: two input bytes, one output byte,
engine exits zero. -/
theorem C4_transform_gltf_file_success_witness :
    ("a" : String) ≠ "b" ∧
    FS.get [("a", [1, 2])] "a" = some [1, 2] ∧
    (validate_operations ["dedup"]).1 = true ∧
    transform_gltf_file (constEngine 0 "done" "" (some [7])) [("a", [1, 2])]
        "a" "b" ["dedup"] none =
      Except.ok ({
        success := true,
        message := "done",
        input_size := some 2,
        output_size := some 1,
        reduction_percent := some (if (2 : Nat) = 0 then 0 else
          (((2 : Nat) : ℚ) - ((1 : Nat) : ℚ)) / ((2 : Nat) : ℚ) * 100) },
        FS.set [("a", [1, 2])] "b" [7]) :=
  ⟨by decide, by decide, by decide,
    C4_transform_gltf_file_success (constEngine 0 "done" "" (some [7]))
      [("a", [1, 2])] "a" "b" ["dedup"] none [1, 2] [7]
      (by decide) rfl (by decide) rfl rfl⟩

/-- C8 (amended): `transform_gltf_file` raises `FileNotFoundError` when
the input path does not exist, and — when the input exists — raises
`ValueError` when the operation list contains a name outside the
allow-list; in both cases the outcome is the same for every engine, i.e.
the failure occurs before any external process runs.  (The empty operation
list, which fails catalog validation, is not rejected here; see the
counterexample.) -/
theorem C8_transform_gltf_file_preconditions (fs : FS) (i o : String)
    (ops : List String) (options : Option (List (String × String))) :
    (FS.get fs i = none → ∀ engine : Engine,
      transform_gltf_file engine fs i o ops options =
        Except.error ⟨"FileNotFoundError", "Input file not found: " ++ i⟩) ∧
    (FS.get fs i ≠ none → invalid_ops ops ≠ [] → ∀ engine : Engine,
      transform_gltf_file engine fs i o ops options =
        Except.error ⟨"ValueError",
          "Invalid operations: " ++ pyStrListRepr (invalid_ops ops)⟩) := by
  constructor
  · intro h engine
    simp [transform_gltf_file, h]
  · intro h hi engine
    obtain ⟨ib, hib⟩ := Option.ne_none_iff_exists'.mp h
    simp [transform_gltf_file, hib, hi]

/-- Witness for C8 (amended) at concrete inputs: a missing input path and
an unknown operation name. -/
theorem C8_transform_gltf_file_preconditions_witness :
    FS.get ([] : FS) "x" = none ∧
    transform_gltf_file (constEngine 0 "" "" none) [] "x" "y" ["dedup"]
        none =
      Except.error ⟨"FileNotFoundError", "Input file not found: " ++ "x"⟩ ∧
    FS.get [("x", [1])] "x" ≠ none ∧
    invalid_ops ["bogus"] ≠ [] ∧
    transform_gltf_file (constEngine 0 "" "" none) [("x", [1])] "x" "y"
        ["bogus"] none =
      Except.error ⟨"ValueError",
        "Invalid operations: " ++ pyStrListRepr (invalid_ops ["bogus"])⟩ :=
  ⟨rfl,
    (C8_transform_gltf_file_preconditions [] "x" "y" ["dedup"] none).1 rfl
      (constEngine 0 "" "" none),
    by decide, by decide,
    (C8_transform_gltf_file_preconditions [("x", [1])] "x" "y" ["bogus"]
        none).2 (by decide) (by decide) (constEngine 0 "" "" none)⟩

/-- Counterexample for C8 as stated: the empty operation list fails
catalog validation, yet `transform_gltf_file` does not raise an
invalid-argument fault — it proceeds to invoke the external process and
returns a success result. -/
theorem C8_counterexample :
    (validate_operations []).1 = false ∧
    (transform_gltf_file (constEngine 0 "" "" (some [1])) [("in.glb", [1])]
        "in.glb" "out.glb" [] none).toOption.map
      (fun r => (r.1.success, r.1.message, r.2)) =
      some (true, "", FS.set [("in.glb", [1])] "out.glb" [1]) := by
  constructor
  · rfl
  · rfl

end IcosaGltf

namespace IcosaGltf

theorem transform_gltf_file_ok (engine : Engine) (fs : FS) (i o : String)
    (ops : List String) (options : Option (List (String × String)))
    (ib ob : Bytes) (hio : i ≠ o)
    (hin : FS.get fs i = some ib)
    (hval : invalid_ops ops = [])
    (hexit : (engine fs i o (String.intercalate "," ops)
      (optionsArg options)).exitCode = 0)
    (hout : (engine fs i o (String.intercalate "," ops)
      (optionsArg options)).output = some ob) :
    transform_gltf_file engine fs i o ops options =
      Except.ok ({
        success := true,
        message := (engine fs i o (String.intercalate "," ops)
          (optionsArg options)).stdout,
        input_size := some ib.length,
        output_size := some ob.length,
        reduction_percent := some (if ib.length > 0 then
          ((ib.length : ℚ) - (ob.length : ℚ)) / (ib.length : ℚ) * 100
          else 0) },
        FS.set fs o ob) := by
  simp only [transform_gltf_file, hin, hval, ne_eq, not_true_eq_false,
    if_false, hout, hexit, if_pos rfl, FS.get_set_self,
    FS.get_set_ne fs o i ob hio]
  simp

theorem transform_gltf_file_fail (engine : Engine) (fs : FS) (i o : String)
    (ops : List String) (options : Option (List (String × String)))
    (ib : Bytes)
    (hin : FS.get fs i = some ib)
    (hval : invalid_ops ops = [])
    (hexit : (engine fs i o (String.intercalate "," ops)
      (optionsArg options)).exitCode ≠ 0) :
    transform_gltf_file engine fs i o ops options =
      Except.ok ({
        success := false,
        message := "Transformation failed: " ++
          (engine fs i o (String.intercalate "," ops)
            (optionsArg options)).stderr,
        error := some (calledProcessErrorStr
          (engine fs i o (String.intercalate "," ops)
            (optionsArg options)).exitCode) },
        match (engine fs i o (String.intercalate "," ops)
          (optionsArg options)).output with
        | some b => FS.set fs o b
        | none => fs) := by
  simp only [transform_gltf_file, hin, hval, ne_eq, not_true_eq_false,
    if_false, if_neg hexit]

theorem tryBody_engine_fail (engine : Engine) (ops : List String)
    (options : Option (List (String × String))) (storage : FS)
    (res : Resource) (name : String) (bytes : Bytes)
    (hstored : FS.get storage name = some bytes)
    (hval : invalid_ops ops = [])
    (hexit : (stagedRun engine ops options bytes).exitCode ≠ 0) :
    tryBody engine ops options storage res name =
      (Except.ok {
        success := false,
        message := "Transformation failed: " ++
          (stagedRun engine ops options bytes).stderr,
        error := some (calledProcessErrorStr
          (stagedRun engine ops options bytes).exitCode) },
        storage, res) := by
  simp only [stagedRun] at hexit ⊢
  have hcall := transform_gltf_file_fail engine (FS.set [] "input.glb" bytes)
    "input.glb" "output.glb" ops options bytes
    (FS.get_set_self [] "input.glb" bytes) hval hexit
  simp only [tryBody, hstored, hcall]
  simp

theorem tryBody_engine_ok (engine : Engine) (ops : List String)
    (options : Option (List (String × String))) (storage : FS)
    (res : Resource) (name : String) (bytes out : Bytes)
    (hstored : FS.get storage name = some bytes)
    (hval : invalid_ops ops = [])
    (hexit : (stagedRun engine ops options bytes).exitCode = 0)
    (hout : (stagedRun engine ops options bytes).output = some out) :
    tryBody engine ops options storage res name =
      (Except.ok {
        success := true,
        message := (stagedRun engine ops options bytes).stdout,
        input_size := some bytes.length,
        output_size := some out.length,
        reduction_percent := some (if bytes.length > 0 then
          ((bytes.length : ℚ) - (out.length : ℚ)) / (bytes.length : ℚ) * 100
          else 0),
        original_name := some (basename name),
        new_file_path := some (basename name) },
        FS.set (FS.del storage name) (basename name) out,
        { res with file := some (basename name) }) := by
  simp only [stagedRun] at hexit hout ⊢
  have hcall := transform_gltf_file_ok engine (FS.set [] "input.glb" bytes)
    "input.glb" "output.glb" ops options bytes out (by decide)
    (FS.get_set_self [] "input.glb" bytes) hval hexit hout
  simp only [tryBody, hstored, hcall, FS.get_set_self]
  simp

end IcosaGltf

namespace IcosaGltf

theorem Format.update_root_self (fmt : Format) (res : Resource)
    (h : fmt.root_resource = some res) :
    { fmt with root_resource := some res } = fmt := by
  cases fmt; simp_all

theorem Resource.update_file_self (res : Resource) (name : String)
    (h : res.file = some name) :
    { res with file := some name } = res := by
  cases res; simp_all

theorem transform_asset_formats_singleton (engine : Engine)
    (ops : List String) (options : Option (List (String × String)))
    (fmt : Format) (storage : FS) :
    transform_asset_formats engine ⟨[fmt]⟩ ops options
        (some [fmt.format_type]) storage =
      ([(fmt.format_type, (processFormat engine ops options storage fmt).1)],
        (processFormat engine ops options storage fmt).2.1,
        [(processFormat engine ops options storage fmt).2.2]) := by
  simp [transform_asset_formats, matchedFormats, orchStep, dictSet,
    List.contains, List.elem_iff]

/-- C2: when the staged engine run for a variant's stored root-resource
file exits non-zero, `processFormat` — the step `transform_asset_formats`
applies to that variant — returns the executor's failure result verbatim,
with the durable storage and the variant (hence its resource) unchanged;
and on an asset holding exactly this variant, `transform_asset_formats`
records exactly that failure entry and leaves the storage untouched. -/
theorem C2_engine_failure_no_mutation (engine : Engine) (ops : List String)
    (options : Option (List (String × String))) (storage : FS)
    (fmt : Format) (res : Resource) (name : String) (bytes : Bytes)
    (hroot : fmt.root_resource = some res)
    (hfile : res.file = some name)
    (hstored : FS.get storage name = some bytes)
    (hval : invalid_ops ops = [])
    (hexit : (stagedRun engine ops options bytes).exitCode ≠ 0) :
    processFormat engine ops options storage fmt =
      ({ success := false,
         message := "Transformation failed: " ++
           (stagedRun engine ops options bytes).stderr,
         error := some (calledProcessErrorStr
           (stagedRun engine ops options bytes).exitCode) },
        storage, fmt) ∧
    transform_asset_formats engine ⟨[fmt]⟩ ops options
        (some [fmt.format_type]) storage =
      ([(fmt.format_type,
         { success := false,
           message := "Transformation failed: " ++
             (stagedRun engine ops options bytes).stderr,
           error := some (calledProcessErrorStr
             (stagedRun engine ops options bytes).exitCode) })],
        storage, [fmt]) := by
  have hbody := tryBody_engine_fail engine ops options storage res name
    bytes hstored hval hexit
  have hpf : processFormat engine ops options storage fmt =
      ({ success := false,
         message := "Transformation failed: " ++
           (stagedRun engine ops options bytes).stderr,
         error := some (calledProcessErrorStr
           (stagedRun engine ops options bytes).exitCode) },
        storage, fmt) := by
    simp only [processFormat, hroot, hfile, hbody,
      Format.update_root_self fmt res hroot]
  exact ⟨hpf, by rw [transform_asset_formats_singleton, hpf]⟩

/-- Witness for C2 at a concrete input: engine exits 3 with stderr
"boom"; storage, resource and variant are returned unchanged. -/
theorem C2_engine_failure_no_mutation_witness :
    FS.get [("a.glb", [1, 2])] "a.glb" = some [1, 2] ∧
    invalid_ops ["dedup"] = [] ∧
    (stagedRun (constEngine 3 "" "boom" none) ["dedup"] none
      [1, 2]).exitCode ≠ 0 ∧
    processFormat (constEngine 3 "" "boom" none) ["dedup"] none
        [("a.glb", [1, 2])] ⟨1, "GLB", some ⟨10, some "a.glb"⟩⟩ =
      ({ success := false,
         message := "Transformation failed: " ++ "boom",
         error := some (calledProcessErrorStr 3) },
        [("a.glb", [1, 2])], ⟨1, "GLB", some ⟨10, some "a.glb"⟩⟩) :=
  ⟨rfl, by decide, by decide,
    (C2_engine_failure_no_mutation (constEngine 3 "" "boom" none) ["dedup"]
      none [("a.glb", [1, 2])] ⟨1, "GLB", some ⟨10, some "a.glb"⟩⟩
      ⟨10, some "a.glb"⟩ "a.glb" [1, 2] rfl rfl rfl (by decide)
      (by decide)).1⟩

/-- C3: when the staged engine run exits zero having produced output
bytes, and the resource's stored name is a plain filename (equal to its
basename), `processFormat` deletes the old stored bytes, writes the
transformed bytes back under the same original filename, leaves the
variant pointing at the same resource under the same name, and records the
success result — so reading the storage at the original name afterwards
yields the transformed bytes. -/
theorem C3_success_preserves_filename (engine : Engine) (ops : List String)
    (options : Option (List (String × String))) (storage : FS)
    (fmt : Format) (res : Resource) (name : String) (bytes out : Bytes)
    (hroot : fmt.root_resource = some res)
    (hfile : res.file = some name)
    (hstored : FS.get storage name = some bytes)
    (hval : invalid_ops ops = [])
    (hexit : (stagedRun engine ops options bytes).exitCode = 0)
    (hout : (stagedRun engine ops options bytes).output = some out)
    (hname : basename name = name) :
    processFormat engine ops options storage fmt =
      ({ success := true,
         message := (stagedRun engine ops options bytes).stdout,
         input_size := some bytes.length,
         output_size := some out.length,
         reduction_percent := some (if bytes.length > 0 then
           ((bytes.length : ℚ) - (out.length : ℚ)) / (bytes.length : ℚ) * 100
           else 0),
         original_name := some name,
         new_file_path := some name },
        FS.set storage name out, fmt) ∧
    FS.get (FS.set storage name out) name = some out := by
  have hbody := tryBody_engine_ok engine ops options storage res name
    bytes out hstored hval hexit hout
  rw [hname] at hbody
  have hres : ({ res with file := some name } : Resource) = res :=
    Resource.update_file_self res name hfile
  rw [hres] at hbody
  have hst : FS.set (FS.del storage name) name out =
      FS.set storage name out := by
    simp [FS.set, FS.del_del]
  rw [hst] at hbody
  refine ⟨?_, FS.get_set_self storage name out⟩
  simp only [processFormat, hroot, hfile, hbody,
    Format.update_root_self fmt res hroot]

/-- Witness for C3 at a concrete input: a two-byte stored file is
transformed into a one-byte output saved under the same name. -/
theorem C3_success_preserves_filename_witness :
    FS.get [("a.glb", [1, 2])] "a.glb" = some [1, 2] ∧
    basename "a.glb" = "a.glb" ∧
    processFormat (constEngine 0 "ok" "" (some [9])) ["dedup"] none
        [("a.glb", [1, 2])] ⟨1, "GLB", some ⟨10, some "a.glb"⟩⟩ =
      ({ success := true,
         message := "ok",
         input_size := some 2,
         output_size := some 1,
         reduction_percent := some (if (2 : Nat) > 0 then
           (((2 : Nat) : ℚ) - ((1 : Nat) : ℚ)) / ((2 : Nat) : ℚ) * 100
           else 0),
         original_name := some "a.glb",
         new_file_path := some "a.glb" },
        FS.set [("a.glb", [1, 2])] "a.glb" [9],
        ⟨1, "GLB", some ⟨10, some "a.glb"⟩⟩) ∧
    FS.get (FS.set [("a.glb", [1, 2])] "a.glb" [9]) "a.glb" = some [9] :=
  ⟨rfl, rfl,
    (C3_success_preserves_filename (constEngine 0 "ok" "" (some [9]))
      ["dedup"] none [("a.glb", [1, 2])]
      ⟨1, "GLB", some ⟨10, some "a.glb"⟩⟩ ⟨10, some "a.glb"⟩ "a.glb"
      [1, 2] [9] rfl rfl rfl (by decide) rfl rfl rfl).1,
    (C3_success_preserves_filename (constEngine 0 "ok" "" (some [9]))
      ["dedup"] none [("a.glb", [1, 2])]
      ⟨1, "GLB", some ⟨10, some "a.glb"⟩⟩ ⟨10, some "a.glb"⟩ "a.glb"
      [1, 2] [9] rfl rfl rfl (by decide) rfl rfl rfl).2⟩

/-- C5: any exception escaping the per-variant body (staging the file,
running the transform, or writing back) is caught by
`processFormat` — the step `transform_asset_formats` applies to every
matched variant — and converted into that variant's failed result carrying
the exception's message and kind; the step (and hence the fold in
`transform_asset_formats`, which is total by construction) returns a
result value rather than propagating the fault. -/
theorem C5_exceptions_converted (engine : Engine) (ops : List String)
    (options : Option (List (String × String))) (storage : FS)
    (fmt : Format) (res : Resource) (name : String) (e : PyExc)
    (storage1 : FS) (res1 : Resource)
    (hroot : fmt.root_resource = some res)
    (hfile : res.file = some name)
    (hbody : tryBody engine ops options storage res name =
      (Except.error e, storage1, res1)) :
    processFormat engine ops options storage fmt =
      ({ success := false, message := e.msg, error_type := some e.kind },
        storage1, { fmt with root_resource := some res1 }) := by
  simp only [processFormat, hroot, hfile, hbody]

/-- Witness for C5 at a concrete input: the stored file is absent, the
staging open raises, and the entry records the exception message and
kind. -/
theorem C5_exceptions_converted_witness :
    tryBody (constEngine 0 "" "" none) ["dedup"] none [] ⟨10, some "x"⟩
        "x" =
      (Except.error ⟨"FileNotFoundError", "No such file or directory: x"⟩,
        [], ⟨10, some "x"⟩) ∧
    processFormat (constEngine 0 "" "" none) ["dedup"] none []
        ⟨1, "GLB", some ⟨10, some "x"⟩⟩ =
      ({ success := false,
         message := "No such file or directory: x",
         error_type := some "FileNotFoundError" },
        [], ⟨1, "GLB", some ⟨10, some "x"⟩⟩) :=
  ⟨rfl,
    C5_exceptions_converted (constEngine 0 "" "" none) ["dedup"] none []
      ⟨1, "GLB", some ⟨10, some "x"⟩⟩ ⟨10, some "x"⟩ "x"
      ⟨"FileNotFoundError", "No such file or directory: x"⟩ []
      ⟨10, some "x"⟩ rfl rfl rfl⟩

/-- C7 (amended): a variant whose root resource has no stored file
reference (unset, falsy file field) gets the structured failure result
"Resource file not found" — a reported outcome, not a raised exception —
and neither the storage nor the variant is touched. -/
theorem C7_missing_file_reported (engine : Engine) (ops : List String)
    (options : Option (List (String × String))) (storage : FS)
    (fmt : Format) (res : Resource)
    (hroot : fmt.root_resource = some res)
    (hfile : res.file = none) :
    processFormat engine ops options storage fmt =
      ({ success := false, message := "Resource file not found" },
        storage, fmt) := by
  simp only [processFormat, hroot, hfile]

/-- Witness for C7 (amended) at a concrete input. -/
theorem C7_missing_file_reported_witness :
    (Resource.mk 10 none).file = none ∧
    processFormat (constEngine 0 "" "" none) ["dedup"] none
        [("a.glb", [1])] ⟨1, "GLB", some ⟨10, none⟩⟩ =
      ({ success := false, message := "Resource file not found" },
        [("a.glb", [1])], ⟨1, "GLB", some ⟨10, none⟩⟩) :=
  ⟨rfl,
    C7_missing_file_reported (constEngine 0 "" "" none) ["dedup"] none
      [("a.glb", [1])] ⟨1, "GLB", some ⟨10, none⟩⟩ ⟨10, none⟩ rfl rfl⟩

/-- Counterexample for C7 as stated: a root resource referencing a stored
file whose byte stream is present but empty is not reported as
"Resource file not found"; the variant is processed normally, the result
is a success, and the resource's stored bytes are rewritten. -/
theorem C7_counterexample :
    FS.get [("a.glb", [])] "a.glb" = some [] ∧
    (processFormat (constEngine 0 "ok" "" (some [1, 2])) ["dedup"] none
      [("a.glb", [])] ⟨1, "GLB", some ⟨10, some "a.glb"⟩⟩).1.success =
        true ∧
    (processFormat (constEngine 0 "ok" "" (some [1, 2])) ["dedup"] none
      [("a.glb", [])] ⟨1, "GLB", some ⟨10, some "a.glb"⟩⟩).1.message =
        "ok" ∧
    FS.get (processFormat (constEngine 0 "ok" "" (some [1, 2])) ["dedup"]
      none [("a.glb", [])]
      ⟨1, "GLB", some ⟨10, some "a.glb"⟩⟩).2.1 "a.glb" = some [1, 2] :=
  ⟨rfl, rfl, rfl, rfl⟩

end IcosaGltf

namespace IcosaGltf

theorem lookupResult_dictSet (rs : List (String × TransformResult))
    (k : String) (v : TransformResult) (t : String) :
    lookupResult (dictSet rs k v) t =
      if t = k then some v else lookupResult rs t := by
  induction rs with
  | nil =>
    simp only [dictSet, lookupResult]
    by_cases htk : t = k
    · simp [htk]
    · have hkt : ¬ k = t := fun hh => htk hh.symm
      simp [htk, hkt]
  | cons e rest ih =>
    simp only [dictSet]
    by_cases hek : e.1 = k
    · simp only [if_pos hek]
      by_cases htk : t = k
      · simp [lookupResult, htk]
      · have hkt : ¬ k = t := fun hh => htk hh.symm
        have het : ¬ e.1 = t := fun hh => hkt (hek ▸ hh)
        simp [lookupResult, hkt, het, htk]
    · simp only [if_neg hek]
      by_cases het : e.1 = t
      · have htk : ¬ t = k := fun hh => hek (hh ▸ het)
        simp [lookupResult, het, htk]
      · simp [lookupResult, het, ih]

theorem mem_keys_dictSet (rs : List (String × TransformResult))
    (k : String) (v : TransformResult) (t : String) :
    t ∈ (dictSet rs k v).map Prod.fst ↔
      t = k ∨ t ∈ rs.map Prod.fst := by
  induction rs with
  | nil => simp [dictSet]
  | cons e rest ih =>
    by_cases hek : e.1 = k
    · simp_all [dictSet]
    · simp_all [dictSet]
      tauto

theorem nodup_keys_dictSet (rs : List (String × TransformResult))
    (k : String) (v : TransformResult)
    (h : (rs.map Prod.fst).Nodup) :
    ((dictSet rs k v).map Prod.fst).Nodup := by
  induction rs with
  | nil => simp [dictSet]
  | cons e rest ih =>
    simp only [List.map_cons, List.nodup_cons] at h
    by_cases hek : e.1 = k
    · simp only [dictSet, if_pos hek, List.map_cons, List.nodup_cons]
      exact ⟨hek ▸ h.1, h.2⟩
    · simp only [dictSet, if_neg hek, List.map_cons, List.nodup_cons]
      refine ⟨?_, ih h.2⟩
      rw [mem_keys_dictSet]
      rintro (hc | hc)
      · exact hek hc
      · exact h.1 hc

theorem foldl_orchStep_lookup (engine : Engine) (ops : List String)
    (options : Option (List (String × String))) (l : List Format) :
    ∀ (acc : List (String × TransformResult) × FS × List Format)
      (t : String),
      (lookupResult (l.foldl (orchStep engine ops options) acc).1
        t).isSome = true ↔
      ((lookupResult acc.1 t).isSome = true ∨
        t ∈ l.map (fun f => f.format_type)) := by
  induction l with
  | nil => simp
  | cons f rest ih =>
    intro acc t
    rw [List.foldl_cons, ih]
    simp only [orchStep, lookupResult_dictSet, List.map_cons,
      List.mem_cons]
    by_cases htf : t = f.format_type
    · simp [htf]
    · simp [htf]

theorem foldl_orchStep_nodup (engine : Engine) (ops : List String)
    (options : Option (List (String × String))) (l : List Format) :
    ∀ (acc : List (String × TransformResult) × FS × List Format),
      (acc.1.map Prod.fst).Nodup →
      ((l.foldl (orchStep engine ops options) acc).1.map Prod.fst).Nodup := by
  induction l with
  | nil => exact fun acc h => h
  | cons f rest ih =>
    intro acc h
    rw [List.foldl_cons]
    exact ih _ (nodup_keys_dictSet _ _ _ h)

/-- C1 (amended): `transform_asset_formats` (with `targetFormatKinds`
defaulting to {GLTF1, GLTF2, GLB} when omitted) returns a mapping that has
an entry exactly for each format type occurring among the matched variants
(a variant matches iff its `format_type` is in the target list), with no
duplicate keys — so each matched variant is attempted and contributes an
entry under its type regardless of other variants' failures, but several
matched variants sharing one `format_type` share a single entry (the last
one's result). -/
theorem C1_one_entry_per_matched_type (engine : Engine) (asset : Asset)
    (ops : List String) (options : Option (List (String × String)))
    (format_types : Option (List String)) (storage : FS) :
    (∀ t : String,
      (lookupResult (transform_asset_formats engine asset ops options
        format_types storage).1 t).isSome = true ↔
      t ∈ (matchedFormats asset
        (format_types.getD ["GLTF1", "GLTF2", "GLB"])).map
          (fun f => f.format_type)) ∧
    ((transform_asset_formats engine asset ops options format_types
      storage).1.map Prod.fst).Nodup ∧
    transform_asset_formats engine asset ops options none storage =
      transform_asset_formats engine asset ops options
        (some ["GLTF1", "GLTF2", "GLB"]) storage := by
  refine ⟨?_, ?_, rfl⟩
  · intro t
    rw [show (transform_asset_formats engine asset ops options format_types
        storage) =
      (matchedFormats asset
        (format_types.getD ["GLTF1", "GLTF2", "GLB"])).foldl
        (orchStep engine ops options) ([], storage, []) from rfl]
    rw [foldl_orchStep_lookup]
    simp [lookupResult]
  · exact foldl_orchStep_nodup engine ops options _ ([], storage, [])
      (by simp)

/-- Counterexample for C1 as stated: an asset with two matched GLB
variants (both lacking a root resource) yields a one-entry mapping, not
one entry per matched variant. -/
theorem C1_counterexample :
    (matchedFormats ⟨[⟨1, "GLB", none⟩, ⟨2, "GLB", none⟩]⟩
      ["GLTF1", "GLTF2", "GLB"]).length = 2 ∧
    (transform_asset_formats (constEngine 0 "" "" none)
      ⟨[⟨1, "GLB", none⟩, ⟨2, "GLB", none⟩]⟩ ["dedup"] none none
      []).1.length = 1 := by
  constructor
  · rfl
  · rfl

end IcosaGltf

namespace IcosaModels

/-- C9 (amended): `add_root_resource` on a resource carrying a format
association succeeds, setting the variant's root resource to the resource
and detaching the resource's free-floating format association
(`format := none`); consequently an immediately following
`add_root_resource` of the now-detached resource on any other variant
raises `RootResourceException`.  (The data model itself does not enforce
a global at-most-one-root invariant; see the counterexample.) -/
theorem C9_add_root_resource_detaches (fmt : Format) (res : Resource)
    (fid : Nat) (h : res.format = some fid) :
    add_root_resource fmt res =
      Except.ok ({ fmt with root_resource := some res.id },
        { res with format := none }) ∧
    (∀ fmt2 : Format,
      add_root_resource fmt2 { res with format := none } =
        Except.error "Resource must have a format associated with it.") := by
  refine ⟨?_, fun fmt2 => rfl⟩
  simp [add_root_resource, h]

/-- Witness for C9 (amended) at a concrete input. -/
theorem C9_add_root_resource_detaches_witness :
    (Resource.mk 10 (some 1)).format = some 1 ∧
    add_root_resource ⟨1, none⟩ ⟨10, some 1⟩ =
      Except.ok (⟨1, some 10⟩, ⟨10, none⟩) ∧
    add_root_resource ⟨2, none⟩ ⟨10, none⟩ =
      Except.error "Resource must have a format associated with it." :=
  ⟨rfl, (C9_add_root_resource_detaches ⟨1, none⟩ ⟨10, some 1⟩ 1 rfl).1,
    (C9_add_root_resource_detaches ⟨1, none⟩ ⟨10, some 1⟩ 1 rfl).2
      ⟨2, none⟩⟩

/-- Counterexample for C9 as stated: the at-most-one-root invariant is not
maintained at all times — a run of ordinary operations (row creation,
foreign-key re-assignment, `add_root_resource`) reaches a state in which
one resource is the root resource of two distinct format variants. -/
theorem C9_counterexample :
    ¬ AtMostOneRoot (run ⟨[], []⟩
      [.createFormat 1, .createFormat 2, .createResource 10 (some 1),
       .addRootResource 1 10, .setResourceFormat 10 (some 2),
       .addRootResource 2 10]) := by
  decide

/-- C10: `add_root_resource` on a resource with no format association
raises `RootResourceException` (with the source's message), and the
corresponding database operation leaves the state — both the variant's
root resource and the resource — unchanged. -/
theorem C10_add_root_resource_requires_format (fmt : Format)
    (res : Resource) (h : res.format = none) :
    add_root_resource fmt res =
      Except.error "Resource must have a format associated with it." ∧
    (∀ s : DbState, findFormat s fmt.id = some fmt →
      findResource s res.id = some res →
      applyOp s (.addRootResource fmt.id res.id) = s) := by
  have herr : add_root_resource fmt res =
      Except.error "Resource must have a format associated with it." := by
    simp [add_root_resource, h]
  refine ⟨herr, fun s hf hr => ?_⟩
  simp [applyOp, hf, hr, herr]

/-- Witness for C10 at a concrete input. -/
theorem C10_add_root_resource_requires_format_witness :
    (Resource.mk 10 none).format = none ∧
    add_root_resource ⟨1, none⟩ ⟨10, none⟩ =
      Except.error "Resource must have a format associated with it." ∧
    applyOp ⟨[⟨1, none⟩], [⟨10, none⟩]⟩ (.addRootResource 1 10) =
      ⟨[⟨1, none⟩], [⟨10, none⟩]⟩ :=
  ⟨rfl, (C10_add_root_resource_requires_format ⟨1, none⟩ ⟨10, none⟩ rfl).1,
    (C10_add_root_resource_requires_format ⟨1, none⟩ ⟨10, none⟩ rfl).2
      ⟨[⟨1, none⟩], [⟨10, none⟩]⟩ rfl rfl⟩

end IcosaModels
